import Mathlib

/-!
Verification development for the novavm-server repository.

The repository holds three Express server variants:
* `src/unnamed/part_000`, first document ("variant A"): an auth middleware,
  health endpoints, the `createFilledPDF` template-fetch/overlay/synthesis
  routine, and a `POST /` generation handler;
* `src/unnamed/part_000`, second document ("variant B"): the
  `generateArticlesDocument` / `generateEINDocument` synthesizers and a
  `POST /agent/submit` handler;
* `src/server.js`: the canonical server with `authenticateRequest`, CORS,
  mock SmartFile routes, `generateMockPDF` and `POST /agent/submit`.

Each JavaScript routine is embedded shallowly below: optional JS values are
`Option String` (with `none` for `undefined`), JS truthiness of strings
(`""` and `undefined` falsy) is made explicit, network and PDF-library
effects become explicit parameters, and the `new Date()` timestamps become
explicit `String`/`Nat` arguments.
-/

namespace NovaVM

/-- JS `a || b` on two possibly-undefined string values: `a` wins unless it
is `undefined` or the empty string (both falsy in JS). -/
def jsOrOpt (a b : Option String) : Option String :=
  match a with
  | none => b
  | some s => if s = "" then b else some s

/-- JS string `||` with a plain string default: `s || dflt`. -/
def jsOrS (s dflt : String) : String :=
  if s = "" then dflt else s

/-- Reading a possibly-undefined JS string where `undefined` behaves as a
falsy value that `||` immediately discards: `x || ''`. -/
def jsField (o : Option String) : String := o.getD ""

/-- JS template-literal interpolation `${o}` of a possibly-undefined value:
`undefined` prints as the string "undefined". -/
def tpl (o : Option String) : String := o.getD "undefined"

theorem jsOrS_ne_empty (s dflt : String) (h : dflt ≠ "") : jsOrS s dflt ≠ "" := by
  unfold jsOrS
  split
  · exact h
  · assumption

/-! ## Variant A: `createFilledPDF` (src/unnamed/part_000, first document)

The routine downloads a template; on a 2xx response it loads the PDF and
draws overlay text on the first page (the source comment reads "Add text
overlay instead of trying to fill form fields" — no interactive form field
is ever touched); on a non-2xx response or a thrown fetch/load/draw error
it builds a fresh document from the intake data. -/

/-- A PDF-library operation performed on a document. The source only ever
calls `drawText`; `setTextField` is in the vocabulary so that "the engine
attempts to set interactive form fields" is expressible (and refutable). -/
inductive PdfOp where
  | drawText (text : String) (x y : Int) (size : Nat) (bold : Bool)
  | setTextField (name value : String)
  deriving DecidableEq, Repr

/-- Whether an operation sets an interactive form field. -/
def PdfOp.isSetField : PdfOp → Bool
  | .setTextField _ _ => true
  | _ => false

/-- A successfully downloaded and loaded template document: its page count
and the names of its interactive form fields (present in the bytes, never
inspected by the source code). -/
structure TemplateDoc where
  pages : Nat
  formFieldNames : List String
  deriving DecidableEq, Repr

/-- Outcome of the `fetch` call in `createFilledPDF`.  `httpError` is a
completed response with `response.ok` false (non-2xx); `networkError` is a
rejected promise (DNS/socket failure, or an OS-level timeout — the code
itself configures no timeout, see `templateFetchOptions`). -/
inductive FetchOutcome where
  | success (tmpl : TemplateDoc)
  | httpError (status : Nat)
  | networkError (msg : String)
  deriving DecidableEq, Repr

/-- Whether the fetch failed (non-2xx or thrown). -/
def FetchOutcome.isFailure : FetchOutcome → Bool
  | .success _ => false
  | _ => true

/-- The business payload of variant A (`req.body` of `POST /`), all fields
optional as in JS. -/
structure BusinessDataA where
  LEGAL_NAME : Option String := none
  MAILING_ADDRESS : Option String := none
  RESPONSIBLE_PARTY_NAME : Option String := none
  LLC_NAME : Option String := none
  SERVICE_OF_PROCESS : Option String := none
  BUSINESS_ADDRESS : Option String := none
  STATE : Option String := none
  ENTITY_TYPE : Option String := none
  ORGANIZER_NAME : Option String := none
  DATE : Option String := none
  REASON : Option String := none
  deriving DecidableEq, Repr

/-- The overlay draw calls of `createFilledPDF` on a successfully loaded
template: three fixed-coordinate `drawText`s for `SS-4`, three for
`CA-Articles`, nothing for any other form type.  Values fall back to `''`
via `||`. -/
def overlayOps (d : BusinessDataA) (formType : String) : List PdfOp :=
  if formType = "SS-4" then
    [ .drawText (jsField d.LEGAL_NAME) 150 650 10 false
    , .drawText (jsField d.MAILING_ADDRESS) 150 620 10 false
    , .drawText (jsField d.RESPONSIBLE_PARTY_NAME) 150 590 10 false ]
  else if formType = "CA-Articles" then
    [ .drawText (jsField d.LLC_NAME) 150 600 12 false
    , .drawText (jsField d.SERVICE_OF_PROCESS) 150 570 10 false
    , .drawText (jsField d.BUSINESS_ADDRESS) 150 540 10 false ]
  else []

/-- The fixed (label, value) rows of the synthesis fallback that do not
depend on the current date, in source order. -/
def infoFixed (d : BusinessDataA) : List (String × String) :=
  [ ("Legal Name:", jsOrS (jsField d.LEGAL_NAME) (jsField d.LLC_NAME))
  , ("Business Address:", jsField d.BUSINESS_ADDRESS)
  , ("Mailing Address:", jsField d.MAILING_ADDRESS)
  , ("State:", jsField d.STATE)
  , ("Entity Type:", jsField d.ENTITY_TYPE)
  , ("Responsible Party:", jsOrS (jsField d.RESPONSIBLE_PARTY_NAME) (jsField d.ORGANIZER_NAME)) ]

/-- The extra row pushed only for `SS-4` (`info.push(...)` in the source). -/
def reasonRows (d : BusinessDataA) (formType : String) : List (String × String) :=
  if formType = "SS-4" then
    [("Reason for Application:", jsOrS (jsField d.REASON) "Started new business")]
  else []

/-- The full `info` array of the synthesis fallback: fixed rows, then the
`Date:` row (`businessData.DATE || today`), then the SS-4 reason row.
`today` stands for `new Date().toLocaleDateString()`. -/
def infoList (d : BusinessDataA) (formType today : String) : List (String × String) :=
  infoFixed d ++ [("Date:", jsOrS (jsField d.DATE) today)] ++ reasonRows d formType

/-- The rows the fallback actually draws: `info.forEach` skips rows whose
value is falsy (empty). -/
def drawnRows (d : BusinessDataA) (formType today : String) : List (String × String) :=
  (infoList d formType today).filter (fun p => p.2 ≠ "")

/-- The `info.forEach` rendering loop of the synthesis fallback: for each
row with a truthy value, draw the label at x=50 and the value at x=200 at
the current y, then move down 25 points.  Returns the emitted operations
and the final y position. -/
def rowsLoop : Int → List (String × String) → List PdfOp × Int
  | y, [] => ([], y)
  | y, (label, value) :: rest =>
    if value ≠ "" then
      let (ops, yEnd) := rowsLoop (y - 25) rest
      (.drawText label 50 y 11 true :: .drawText value 200 y 11 false :: ops, yEnd)
    else rowsLoop y rest

/-- Header title of the synthesis fallback. -/
def fallbackTitle (formType : String) : String :=
  if formType = "SS-4" then
    "Application for Employer Identification Number (SS-4)"
  else "Articles of Organization"

/-- Footer note of the synthesis fallback (a fixed literal). -/
def footerNote : String :=
  "This document contains the information you provided and should be submitted to the appropriate government agency."

/-- The complete operation list of the synthesis fallback of
`createFilledPDF`: header at y=750, rows from y=710 descending, footer 40
points under the last row. -/
def fallbackOps (d : BusinessDataA) (formType today : String) : List PdfOp :=
  let rendered := rowsLoop 710 (infoList d formType today)
  .drawText (fallbackTitle formType) 50 750 16 true ::
    rendered.1 ++ [.drawText footerNote 50 (rendered.2 - 40) 10 false]

/-- A document produced by `createFilledPDF`: either the downloaded
template with overlay operations drawn on its first page, or a freshly
synthesized document consisting of the listed operations. -/
inductive RenderedDoc where
  | overlaid (tmpl : TemplateDoc) (ops : List PdfOp)
  | synthesized (ops : List PdfOp)
  deriving DecidableEq, Repr

/-- A rendered document has content: an overlaid document carries the
template's pages, a synthesized one carries its drawn operations. -/
def RenderedDoc.nonEmptyDoc : RenderedDoc → Bool
  | .overlaid tmpl _ => 0 < tmpl.pages
  | .synthesized ops => !ops.isEmpty

/-- Shallow embedding of `createFilledPDF(templateUrl, businessData,
formType)`.  On a 2xx fetch the loaded document gets the fixed overlay
draws (no form field is ever set); if the template has no pages and a draw
is attempted, `pages[0]` is `undefined`, the draw throws, the `catch`
swallows it and control falls to the synthesis fallback — exactly as a
non-2xx response or a thrown fetch does. -/
def createFilledPDF (fetched : FetchOutcome) (d : BusinessDataA)
    (formType today : String) : RenderedDoc :=
  match fetched with
  | .success tmpl =>
    let ops := overlayOps d formType
    if 0 < tmpl.pages ∨ ops = [] then .overlaid tmpl ops
    else .synthesized (fallbackOps d formType today)
  | .httpError _ => .synthesized (fallbackOps d formType today)
  | .networkError _ => .synthesized (fallbackOps d formType today)

/-- The options object passed to `fetch` in `createFilledPDF`, field for
field: a single User-Agent header and nothing else — in particular no
timeout/abort option. -/
structure FetchOptions where
  headers : List (String × String)
  timeout : Option Nat
  deriving DecidableEq, Repr

/-- The literal options of the template fetch call (source lines 59-63). -/
def templateFetchOptions : FetchOptions :=
  { headers := [("User-Agent", "Mozilla/5.0 (Windows NT 10.0; Win64; x64) AppleWebKit/537.36 (KHTML, like Gecko) Chrome/91.0.4472.124 Safari/537.36")]
  , timeout := none }

/-- A template fetch call site: URL plus options. -/
structure FetchRequest where
  url : String
  options : FetchOptions
  deriving DecidableEq, Repr

/-- The SS-4 template fetch of `POST /`. -/
def ss4FetchRequest : FetchRequest :=
  { url := "https://www.irs.gov/pub/irs-pdf/fss4.pdf", options := templateFetchOptions }

/-- The CA Articles template fetch of `POST /`. -/
def articlesFetchRequest : FetchRequest :=
  { url := "https://bpd.cdn.sos.ca.gov/llc/forms/llc-1.pdf", options := templateFetchOptions }

/-! ## Variant A: the `POST /` handler -/

/-- A document entry of the variant A response: filename, MIME type and
the artifact whose base64 bytes fill the `data:<mime>;base64,...` URL. -/
structure DocEntryA where
  filename : String
  mime : String
  payload : RenderedDoc
  deriving DecidableEq, Repr

/-- The JSON envelope of `POST /`. -/
structure ResponseA where
  ok : Bool
  documents : List (String × DocEntryA)
  deriving DecidableEq, Repr

/-- Shallow embedding of the `POST /` handler (variant A): always generate
`ss4` via `createFilledPDF`; generate `articles` only when
`businessData.ENTITY_TYPE === 'LLC' && businessData.STATE === 'CA'`
(strict equality, so an absent field matches nothing). The two fetch
outcomes stand for the downloads of `ss4FetchRequest` and
`articlesFetchRequest`. -/
def handleRoot (fetchSS4 fetchArticles : FetchOutcome) (d : BusinessDataA)
    (today : String) : ResponseA :=
  let ss4Docs : List (String × DocEntryA) :=
    [("ss4", { filename := "SS-4_EIN_Application.pdf"
             , mime := "application/pdf"
             , payload := createFilledPDF fetchSS4 d "SS-4" today })]
  let docs :=
    if d.ENTITY_TYPE = some "LLC" ∧ d.STATE = some "CA" then
      ss4Docs ++
        [("articles", { filename := "Articles_of_Organization.pdf"
                      , mime := "application/pdf"
                      , payload := createFilledPDF fetchArticles d "CA-Articles" today })]
    else ss4Docs
  { ok := true, documents := docs }

/-! ## server.js: `generateMockPDF` and the `POST /agent/submit` handler -/

/-- Fault model of the two pdf-lib calls that can reject inside
`generateMockPDF` — `embedFont` and `save` (font embed / byte write). -/
structure PdfLib where
  embedFontFails : Bool
  saveFails : Bool
  deriving DecidableEq, Repr

/-- The healthy library: neither call rejects. -/
def okLib : PdfLib := { embedFontFails := false, saveFails := false }

/-- The document `generateMockPDF` saves: one US-Letter page with the
title drawn at (50,750) size 16 and the content at (50,700) size 10. -/
structure MockPdf where
  title : String
  content : String
  deriving DecidableEq, Repr

/-- A `data:<mime>;base64,<payload>` URL wrapping a saved document. -/
structure DataUrlC where
  mime : String
  payload : MockPdf
  deriving DecidableEq, Repr

/-- Shallow embedding of `generateMockPDF(title, content)`: create a
document, add a page, embed Helvetica (may reject), draw the two texts,
save (may reject), return the base64 data URL. -/
def generateMockPDF (lib : PdfLib) (title content : String) :
    Except String DataUrlC :=
  if lib.embedFontFails then .error "font embed failed"
  else if lib.saveFails then .error "byte write failed"
  else .ok { mime := "application/pdf", payload := { title := title, content := content } }

/-- The intake fields `POST /agent/submit` of server.js reads. -/
structure IntakeC where
  business_name : Option String := none
  entity_type : Option String := none
  state : Option String := none
  owner_name : Option String := none
  business_purpose : Option String := none
  deriving DecidableEq, Repr

/-- A document entry of the server.js response. -/
structure DocEntryC where
  filename : String
  url : DataUrlC
  document_type : String
  deriving DecidableEq, Repr

/-- The HTTP reply of `POST /agent/submit`: status code, `ok` flag, error
message and documents mapping. -/
structure ResponseC where
  status : Nat
  ok : Bool
  error : Option String
  documents : List (String × DocEntryC)
  jobId : Option String := none
  deriving DecidableEq, Repr

/-- One character of JS `\s` (as relevant to header/name strings). -/
def isJsWs (c : Char) : Bool :=
  c = ' ' ∨ c = '\t' ∨ c = '\n' ∨ c = '\r'

/-- `replace(/\s+/g, '_')`: each maximal whitespace run becomes one `_`.
The boolean tracks whether the previous character was whitespace. -/
def squashWsAux : Bool → List Char → List Char
  | _, [] => []
  | prev, c :: rest =>
    if isJsWs c then
      if prev then squashWsAux true rest else '_' :: squashWsAux true rest
    else c :: squashWsAux false rest

/-- `s.replace(/\s+/g, '_')` on a string. -/
def squashWs (s : String) : String := ⟨squashWsAux false s.data⟩

/-- `intake.business_name?.replace(/\s+/g, '_') || 'Business'`: optional
chaining yields `undefined` for an absent name, and `||` replaces a falsy
result with `'Business'`. -/
def nameSlug (o : Option String) : String :=
  match o with
  | none => "Business"
  | some s => jsOrS (squashWs s) "Business"

/-- The articles title string built by the handler. -/
def articlesTitleOf (i : IntakeC) : String :=
  "Articles of " ++ (if i.entity_type = some "LLC" then "Organization" else "Incorporation")

/-- The articles content string built by the handler. -/
def articlesContentOf (i : IntakeC) : String :=
  "Business Name: " ++ tpl i.business_name ++ "\nState: " ++ tpl i.state ++
    "\nEntity Type: " ++ tpl i.entity_type ++
    "\n\nThis is a mock document generated by the NovaVM server for testing purposes."

/-- The fixed SS-4 title string. -/
def einTitleStr : String := "IRS Form SS-4 (Application for EIN)"

/-- The SS-4 content string built by the handler. -/
def einContentOf (i : IntakeC) : String :=
  "Business Name: " ++ tpl i.business_name ++
    "\nResponsible Party: " ++ tpl (jsOrOpt i.owner_name (some "Not provided")) ++
    "\nBusiness Purpose: " ++ tpl (jsOrOpt i.business_purpose (some "General business purposes")) ++
    "\n\nThis is a mock EIN application generated for testing purposes."

/-- Shallow embedding of server.js `POST /agent/submit`.  A missing
`intake` is answered 400 before any generation; otherwise both mock PDFs
are produced (in source order, the articles one first) and packaged; a
rejection from either pdf-lib call lands in the `catch` and is answered
500 with `ok:false` and no documents.  `nowMs` stands for `Date.now()`. -/
def handleAgentSubmit (lib : PdfLib) (intake : Option IntakeC)
    (jobId : Option String) (nowMs : Nat) : ResponseC :=
  match intake with
  | none =>
    { status := 400, ok := false
    , error := some "Missing intake data in request body", documents := [] }
  | some i =>
    let generated : Except String (DataUrlC × DataUrlC) := do
      let articlesPdf ← generateMockPDF lib (articlesTitleOf i) (articlesContentOf i)
      let einPdf ← generateMockPDF lib einTitleStr (einContentOf i)
      pure (articlesPdf, einPdf)
    match generated with
    | .error msg => { status := 500, ok := false, error := some msg, documents := [] }
    | .ok (articlesPdf, einPdf) =>
      { status := 200, ok := true, error := none
      , jobId := some (jsOrOpt jobId (some ("job_" ++ toString nowMs)) |>.getD "")
      , documents :=
          [ ("articles",
             { filename := nameSlug i.business_name ++ "_Articles_of_" ++
                 (if i.entity_type = some "LLC" then "Organization" else "Incorporation") ++ ".pdf"
             , url := articlesPdf
             , document_type :=
                 if i.entity_type = some "LLC" then "Articles of Organization"
                 else "Articles of Incorporation" })
          , ("ss4",
             { filename := nameSlug i.business_name ++ "_EIN_Application.pdf"
             , url := einPdf
             , document_type := "EIN Application" }) ] }

/-! ## Variant B: `generateArticlesDocument` / `generateEINDocument`
(src/unnamed/part_000, second document)

Both synthesizers add one US-Letter page, draw a header, then run a
`forEach` loop over their row list starting at y=680 and finally draw a
footer at y=50.  The loops differ in their overflow handling:

* `generateArticlesDocument` (lines 440-455): when `yPosition < 100` it
  calls `pdfDoc.addPage(...)` into a `const newPage` that is never used and
  resets `yPosition = 750`, but every `drawText` still targets the `page`
  constant — the first page;
* `generateEINDocument` (lines 536-550): when `yPosition < 100` it merely
  clamps `yPosition = 100` ("simplified for this example") — no page is
  ever added. -/

/-- State of a synthesizer loop: pages added so far, current y, and the
emitted draws as (page index, text, y) triples. -/
structure SynthState where
  numPages : Nat
  y : Int
  ops : List (Nat × String × Int)
  deriving DecidableEq, Repr

/-- One iteration of the `sections.forEach` loop of
`generateArticlesDocument`: on overflow a page is added and y reset, but
the draw goes to page 0 (`page.drawText`), then y drops by 20. -/
def articlesStep (s : SynthState) (row : String) : SynthState :=
  let s' := if s.y < 100 then { s with numPages := s.numPages + 1, y := 750 } else s
  { s' with ops := s'.ops ++ [(0, row, s'.y)], y := s'.y - 20 }

/-- The articles loop run over a row list, from the state after the two
header draws (one page, y=680). -/
def articlesRender (rows : List String) : SynthState :=
  rows.foldl articlesStep { numPages := 1, y := 680, ops := [] }

/-- One iteration of the `formFields.forEach` loop of
`generateEINDocument`: on overflow y is clamped to 100 (no page added),
the draw goes to page 0, then y drops by `20 * 0.8 = 16`. -/
def einStep (s : SynthState) (row : String) : SynthState :=
  let yDraw : Int := if s.y < 100 then 100 else s.y
  { numPages := s.numPages, y := yDraw - 16, ops := s.ops ++ [(0, row, yDraw)] }

/-- The EIN loop run over a row list, from the state after the two header
draws (one page, y=680). -/
def einRender (rows : List String) : SynthState :=
  rows.foldl einStep { numPages := 1, y := 680, ops := [] }

/-- The intake fields read by the variant B generators. -/
structure IntakeB where
  business_name : Option String := none
  entity_type : Option String := none
  state : Option String := none
  principal_address : Option String := none
  business_address : Option String := none
  registered_agent_name : Option String := none
  responsible_party_name : Option String := none
  business_purpose : Option String := none
  trade_name : Option String := none
  mailing_address : Option String := none
  city : Option String := none
  zip_code : Option String := none
  county : Option String := none
  owner_name : Option String := none
  responsible_party_ssn : Option String := none
  member_count : Option String := none
  formation_date : Option String := none
  employee_count : Option String := none
  deriving DecidableEq, Repr

/-- The literal `sections` array of `generateArticlesDocument`. -/
def articlesSections (i : IntakeB) : List String :=
  [ "1. Entity Name: " ++ tpl i.business_name
  , "2. Entity Type: " ++ tpl i.entity_type
  , "3. State of Formation: " ++ tpl i.state
  , "4. Principal Address: " ++
      tpl (jsOrOpt i.principal_address (jsOrOpt i.business_address (some "To be determined")))
  , "5. Registered Agent: " ++
      tpl (jsOrOpt i.registered_agent_name (jsOrOpt i.responsible_party_name (some "To be appointed")))
  , "6. Purpose: " ++ tpl (jsOrOpt i.business_purpose (some "General business purposes"))
  , "7. Duration: Perpetual"
  , "8. Management Structure: " ++
      (if i.entity_type = some "LLC" then "Member-managed" else "Board-managed") ]

/-- Whether `needle` occurs as a substring of `hay` (JS
`String.prototype.includes`). -/
def strHasSub (hay needle : String) : Bool :=
  hay.data.tails.any (fun t => needle.data.isPrefixOf t)

/-- The literal `formFields` array of `generateEINDocument`, given the
entity-type string `et` (the source dereferences `intake.entity_type`
twice without a guard, so the caller must supply it). -/
def einFormFields (i : IntakeB) (et : String) (today : String) : List String :=
  [ "1. Legal name of entity: " ++ tpl i.business_name
  , "2. Trade name of business: " ++ tpl (jsOrOpt i.trade_name i.business_name)
  , "3. Executor, administrator, trustee, \"care of\" name: N/A"
  , "4a. Mailing address: " ++
      tpl (jsOrOpt i.mailing_address (jsOrOpt i.principal_address i.business_address))
  , "4b. City, state, and ZIP code: " ++ jsField i.city ++ ", " ++ jsField i.state ++ " " ++
      jsField i.zip_code
  , "5a. Street address: " ++ tpl (jsOrOpt i.principal_address i.business_address)
  , "5b. City, state, and ZIP code: " ++ jsField i.city ++ ", " ++ jsField i.state ++ " " ++
      jsField i.zip_code
  , "6. County and state: " ++ jsField i.county ++ ", " ++ jsField i.state
  , "7a. Name of responsible party: " ++ tpl (jsOrOpt i.responsible_party_name i.owner_name)
  , "7b. SSN, ITIN, or EIN: " ++ tpl (jsOrOpt i.responsible_party_ssn (some "XXX-XX-XXXX"))
  , "8a. Is this application for a limited liability company: " ++
      (if et = "LLC" then "Yes" else "No")
  , "8b. If yes, enter the number of LLC members: " ++ tpl (jsOrOpt i.member_count (some "1"))
  , "9a. Type of entity: " ++ et
  , "9b. If a corporation, enter the state of incorporation: " ++
      (if strHasSub et "Corp" then tpl i.state else "N/A")
  , "10. Reason for applying: Started new business"
  , "11. Date business started: " ++ tpl (jsOrOpt i.formation_date (some today))
  , "12. Closing month of accounting year: December"
  , "13. Highest number of employees expected: " ++ tpl (jsOrOpt i.employee_count (some "0"))
  , "14. Check one box for the principal activity: Other"
  , "15. Indicate principal line of business: " ++
      tpl (jsOrOpt i.business_purpose (some "General business"))
  , "16. Has the applicant entity shown on line 1 ever applied for an EIN before: No"
  , "17. If you have an EIN, enter it here: N/A"
  , "18. Name and title of contact person: " ++ tpl (jsOrOpt i.responsible_party_name i.owner_name) ]

/-- Shallow embedding of `generateArticlesDocument(intake)`: header at
750/720, the sections loop, footer at y=50 on page 0.  `today` stands for
`new Date().toLocaleDateString()`. -/
def generateArticlesDocument (i : IntakeB) (today : String) : SynthState :=
  let hdr : List (Nat × String × Int) :=
    [ (0, "Articles of " ++ (if i.entity_type = some "LLC" then "Organization" else "Incorporation"), 750)
    , (0, "State of " ++ tpl i.state, 720) ]
  let s := (articlesSections i).foldl articlesStep { numPages := 1, y := 680, ops := hdr }
  { s with ops := s.ops ++ [(0, "Generated by BusinessBuilder AI on " ++ today, 50)] }

/-- Shallow embedding of `generateEINDocument(intake)`: `none` models the
`TypeError` thrown by `intake.entity_type.includes('Corp')` when the
entity type is absent; otherwise header at 750/720, the formFields loop,
footer at y=50 on page 0. -/
def generateEINDocument (i : IntakeB) (today : String) : Option SynthState :=
  match i.entity_type with
  | none => none
  | some et =>
    let hdr : List (Nat × String × Int) :=
      [ (0, "Application for Employer Identification Number (SS-4)", 750)
      , (0, "Department of the Treasury - Internal Revenue Service", 720) ]
    let s := (einFormFields i et today).foldl einStep { numPages := 1, y := 680, ops := hdr }
    some { s with ops := s.ops ++ [(0, "Generated by BusinessBuilder AI on " ++ today, 50)] }

/-! ## Request pipelines: CORS, authentication and routing

`src/server.js` installs, in order: the CORS middleware (which answers any
`OPTIONS` request with 200 before authentication), `authenticateRequest`
(health paths pass; a missing/empty `NOVAVM_ADMIN_KEY` is answered 500; a
header other than exactly `Bearer <key>` is answered 401), and the routes.
Variant A installs only its own auth middleware (the header check runs
first, and only a failing check consults the health-path allowlist; there
is no missing-key branch — an unset key simply never compares equal). -/

/-- An incoming HTTP request: method, path and `Authorization` header
(`none` when absent). -/
structure HttpRequest where
  method : String
  path : String
  authorization : Option String
  deriving DecidableEq, Repr

/-- What the pipeline answered: status code, the `ok` flag of the JSON
body when one is sent, and the name of the route handler that ran
(`none` when the request was short-circuited before any route, or fell
through to the 404 catch-all). -/
structure RouteResponse where
  status : Nat
  okFlag : Option Bool
  handler : Option String
  deriving DecidableEq, Repr

/-- JS truthiness of `process.env.NOVAVM_ADMIN_KEY`: configured means set
and non-empty. -/
def isConfiguredKey : Option String → Bool
  | none => false
  | some s => s ≠ ""

/-- The server.js rejection test
`!authHeader || !authHeader.startsWith('Bearer ') || authHeader.slice(7) !== expectedKey`,
evaluated once the key `k` is known to be configured. -/
def serverAuthRejects (k : String) (auth : Option String) : Bool :=
  match auth with
  | none => true
  | some a => a = "" ∨ ¬a.startsWith "Bearer " ∨ a.drop 7 ≠ k

/-- Whether a request carries exactly `Bearer <key>` for a configured
key — the only way past `authenticateRequest` off the health paths. -/
def serverAuthOk (key : Option String) (auth : Option String) : Bool :=
  match key with
  | none => false
  | some k => k ≠ "" ∧ ¬serverAuthRejects k auth

/-- Path test of the health allowlist shared by both middlewares. -/
def isHealthPath (p : String) : Bool :=
  p = "/health" ∨ p = "/agent/health"

/-- The remainder of a path under `/smartfile/v1/objects/`, when the path
lies under that route prefix. -/
def objectsRemainder (p : String) : Option String :=
  if "/smartfile/v1/objects/".isPrefixOf p then some (p.drop 22) else none

/-- The server.js routing table in registration order; unmatched requests
reach the catch-all 404 handler. -/
def routeServerJs (req : HttpRequest) : RouteResponse :=
  if req.method = "GET" ∧ req.path = "/health" then
    { status := 200, okFlag := some true, handler := some "health" }
  else if req.method = "GET" ∧ req.path = "/agent/health" then
    { status := 200, okFlag := some true, handler := some "agentHealth" }
  else if req.method = "GET" ∧ req.path = "/smartfile" then
    { status := 200, okFlag := some true, handler := some "smartfileStatus" }
  else if req.method = "GET" ∧ req.path = "/smartfile/v1/health" then
    { status := 200, okFlag := some true, handler := some "smartfileHealth" }
  else
    match objectsRemainder req.path with
    | some rest =>
      if req.method = "GET" ∧ ¬strHasSub rest "/" then
        { status := 200, okFlag := some true, handler := some "smartfileList" }
      else if req.method = "POST" then
        { status := 200, okFlag := some true, handler := some "smartfileUpload" }
      else if req.method = "GET" then
        { status := 200, okFlag := some true, handler := some "smartfileDownload" }
      else { status := 404, okFlag := some false, handler := none }
    | none =>
      if req.method = "POST" ∧ req.path = "/agent/submit" then
        { status := 200, okFlag := some true, handler := some "agentSubmit" }
      else { status := 404, okFlag := some false, handler := none }

/-- The full server.js pipeline: CORS preflight short-circuit, then
`authenticateRequest`, then the routes. -/
def serverApp (key : Option String) (req : HttpRequest) : RouteResponse :=
  if req.method = "OPTIONS" then { status := 200, okFlag := none, handler := none }
  else if isHealthPath req.path then routeServerJs req
  else if ¬isConfiguredKey key then { status := 500, okFlag := some false, handler := none }
  else
    match key with
    | none => { status := 500, okFlag := some false, handler := none }
    | some k =>
      if serverAuthRejects k req.authorization then
        { status := 401, okFlag := some false, handler := none }
      else routeServerJs req

/-- The variant A rejection test: same header comparison, except that the
key may be `undefined`, in which case `authHeader.slice(7) !== expectedKey`
is true for every header (a string is never `undefined`). -/
def variantAAuthRejects (key : Option String) (auth : Option String) : Bool :=
  match auth with
  | none => true
  | some a =>
    let sliceMismatch : Bool :=
      match key with
      | none => true
      | some k => a.drop 7 ≠ k
    a = "" ∨ ¬a.startsWith "Bearer " ∨ sliceMismatch

/-- The variant A routing table: the two health endpoints and `POST /`;
anything else falls to the Express default 404. -/
def routeVariantA (req : HttpRequest) : RouteResponse :=
  if req.method = "GET" ∧ req.path = "/health" then
    { status := 200, okFlag := some true, handler := some "health" }
  else if req.method = "GET" ∧ req.path = "/agent/health" then
    { status := 200, okFlag := some true, handler := some "agentHealth" }
  else if req.method = "POST" ∧ req.path = "/" then
    { status := 200, okFlag := some true, handler := some "rootGenerate" }
  else { status := 404, okFlag := none, handler := none }

/-- The variant A pipeline: its auth middleware (health paths escape only
inside the rejection branch), then the routes. -/
def variantAApp (key : Option String) (req : HttpRequest) : RouteResponse :=
  if variantAAuthRejects key req.authorization then
    if isHealthPath req.path then routeVariantA req
    else { status := 401, okFlag := some false, handler := none }
  else routeVariantA req

/-! ## Concrete fixtures used by witnesses and counterexamples -/

/-- A corporation payload whose state is outside the known-jurisdiction
set (variant A only knows the LLC/CA combination). -/
def corpExample : BusinessDataA := { ENTITY_TYPE := some "Corp", STATE := some "TX" }

/-- An intake for `POST /agent/submit` with every field absent — in
particular no business name and no entity type. -/
def emptyIntakeC : IntakeC := {}

/-- A well-formed intake for `POST /agent/submit`. -/
def acmeIntakeC : IntakeC :=
  { business_name := some "Acme LLC", entity_type := some "LLC", state := some "CA" }

/-- A library whose font embedding rejects. -/
def badFontLib : PdfLib := { embedFontFails := true, saveFails := false }

/-- A one-page template that does carry named interactive form fields. -/
def tmplWithFields : TemplateDoc :=
  { pages := 1, formFieldNames := ["topmostSubform[0].Page1[0].f1_1[0]"] }

/-! ## Claims -/

/-- C1, counterexample.  The claim says the `articles` key is never
silently absent for an unrecognized entity-type/state combination.  In the
`POST /` handler, an intake with entity type `Corp` and state `TX` gets no
`articles` entry at all (only `ss4`): the documents mapping silently omits
it, whatever the two template fetches did. -/
theorem C1_counterexample :
    ((handleRoot (.httpError 404) (.httpError 404) corpExample "1/1/2024").documents.lookup
      "articles") = none ∧
    ((handleRoot (.httpError 404) (.httpError 404) corpExample "1/1/2024").documents.lookup
      "ss4").isSome = true := by
  constructor <;> rfl

/-- C1, amended.  In the `POST /` handler SS-4 is always attempted, but an
Articles document is generated exactly when `ENTITY_TYPE === 'LLC'` and
`STATE === 'CA'`; every other entity-type/state combination (e.g. `Corp`
with an unknown state) gets no `articles` key — the omission is silent, not
routed to the generic synthesized template. -/
theorem C1_articles_selection (f1 f2 : FetchOutcome) (d : BusinessDataA) (t : String) :
    ((handleRoot f1 f2 d t).documents.lookup "ss4").isSome = true ∧
    (((handleRoot f1 f2 d t).documents.lookup "articles").isSome = true ↔
      (d.ENTITY_TYPE = some "LLC" ∧ d.STATE = some "CA")) := by
  unfold handleRoot
  by_cases h : d.ENTITY_TYPE = some "LLC" ∧ d.STATE = some "CA" <;>
    simp [h, List.lookup]

/-- C2, counterexample.  The claim says that on a successful template
fetch the engine first attempts to set the template's named interactive
form fields and falls back to overlay only when zero fields were set.  On
a successfully fetched template that does carry a named form field, the
engine's operation trace contains overlay `drawText` calls and not a
single form-field set: no population is ever attempted. -/
theorem C2_counterexample :
    tmplWithFields.formFieldNames ≠ [] ∧
    createFilledPDF (.success tmplWithFields) corpExample "SS-4" "1/1/2024" =
      .overlaid tmplWithFields (overlayOps corpExample "SS-4") ∧
    (overlayOps corpExample "SS-4").all (fun op => !op.isSetField) = true ∧
    overlayOps corpExample "SS-4" ≠ [] := by
  refine ⟨by decide, rfl, by decide, by decide⟩

/-- C2, amended.  On every successful fetch of a template with at least
one page, the engine performs no field population at all: it immediately
draws the fixed-coordinate overlay text on the already-loaded document
(its comment reads "Add text overlay instead of trying to fill form
fields"), and its operation trace contains no form-field set.  Synthesis
is used only when the fetch fails or when drawing on a zero-page template
throws. -/
theorem C2_overlay_no_population (tmpl : TemplateDoc) (d : BusinessDataA)
    (formType today : String) (hp : 0 < tmpl.pages) :
    createFilledPDF (.success tmpl) d formType today = .overlaid tmpl (overlayOps d formType) ∧
    (overlayOps d formType).all (fun op => !op.isSetField) = true := by
  constructor
  · unfold createFilledPDF
    simp [hp]
  · unfold overlayOps
    split
    · simp [List.all, PdfOp.isSetField]
    · split
      · simp [List.all, PdfOp.isSetField]
      · simp [List.all, PdfOp.isSetField]

/-- C2, witness for the amended claim at a concrete template. -/
theorem C2_witness :
    0 < tmplWithFields.pages ∧
    (createFilledPDF (.success tmplWithFields) corpExample "CA-Articles" "1/1/2024" =
        .overlaid tmplWithFields (overlayOps corpExample "CA-Articles") ∧
      (overlayOps corpExample "CA-Articles").all (fun op => !op.isSetField) = true) :=
  ⟨by decide, C2_overlay_no_population tmplWithFields corpExample "CA-Articles" "1/1/2024"
    (by decide)⟩

/-- C6.  Every failing fetch outcome — non-2xx response or thrown network
error (which is how an OS-level timeout would surface) — is absorbed inside
`createFilledPDF`: the function returns the synthesized fallback document
and never propagates the unavailability as an error to its caller. -/
theorem C6_fetch_failure_routes_to_synthesis (f : FetchOutcome) (d : BusinessDataA)
    (formType today : String) (h : f.isFailure = true) :
    createFilledPDF f d formType today = .synthesized (fallbackOps d formType today) := by
  cases f with
  | success tmpl => simp [FetchOutcome.isFailure] at h
  | httpError s => rfl
  | networkError m => rfl

/-- C6, witness at a concrete failing fetch. -/
theorem C6_witness :
    (FetchOutcome.networkError "socket timeout").isFailure = true ∧
    createFilledPDF (.networkError "socket timeout") corpExample "SS-4" "1/1/2024" =
      .synthesized (fallbackOps corpExample "SS-4" "1/1/2024") :=
  ⟨rfl, C6_fetch_failure_routes_to_synthesis (.networkError "socket timeout") corpExample
    "SS-4" "1/1/2024" rfl⟩

/-- C7, counterexample.  The claim says every outbound template fetch is
bounded by an explicit timeout.  Both template fetch call sites pass an
options object whose only entry is a User-Agent header: no timeout (nor
abort signal) is configured anywhere. -/
theorem C7_counterexample :
    ss4FetchRequest.options.timeout = none ∧
    articlesFetchRequest.options.timeout = none := ⟨rfl, rfl⟩

/-- C7, amended.  Both outbound template fetches use the same literal
options: a single realistic User-Agent header and no explicit timeout, so
boundedness against a slow host rests entirely on library/OS defaults. -/
theorem C7_fetch_options :
    ss4FetchRequest.options = templateFetchOptions ∧
    articlesFetchRequest.options = templateFetchOptions ∧
    templateFetchOptions.timeout = none ∧
    templateFetchOptions.headers.length = 1 ∧
    (templateFetchOptions.headers.map Prod.fst) = ["User-Agent"] := by
  refine ⟨rfl, rfl, rfl, rfl, rfl⟩

/-- C3, counterexample.  The claim says an intake missing a required field
(business name or entity type) is answered with `ok:false` and an empty
documents mapping, with no generation performed.  Submitting an intake
object with every field absent — in particular no business name — the
server.js handler runs the full generation and answers 200 with `ok:true`
and both documents present. -/
theorem C3_counterexample :
    (handleAgentSubmit okLib (some emptyIntakeC) none 0).ok = true ∧
    (handleAgentSubmit okLib (some emptyIntakeC) none 0).status = 200 ∧
    ((handleAgentSubmit okLib (some emptyIntakeC) none 0).documents.lookup "ss4").isSome
      = true ∧
    ((handleAgentSubmit okLib (some emptyIntakeC) none 0).documents.lookup "articles").isSome
      = true := by
  refine ⟨rfl, rfl, rfl, rfl⟩

/-- C3, amended.  The only intake validation in `POST /agent/submit` is
the presence of the `intake` object itself: a request without it is
answered 400 with `ok:false` and no documents before any generation, while
any present intake — even one missing business name and entity type —
goes through full generation and is answered `ok:true` with both an `ss4`
and an `articles` document. -/
theorem C3_intake_validation :
    (∀ (lib : PdfLib) (jobId : Option String) (nowMs : Nat),
      handleAgentSubmit lib none jobId nowMs =
        { status := 400, ok := false
        , error := some "Missing intake data in request body", documents := [] }) ∧
    (∀ (i : IntakeC) (jobId : Option String) (nowMs : Nat),
      (handleAgentSubmit okLib (some i) jobId nowMs).ok = true ∧
      (handleAgentSubmit okLib (some i) jobId nowMs).status = 200 ∧
      ((handleAgentSubmit okLib (some i) jobId nowMs).documents.lookup "ss4").isSome = true ∧
      ((handleAgentSubmit okLib (some i) jobId nowMs).documents.lookup "articles").isSome
        = true) := by
  constructor
  · intro lib jobId nowMs
    rfl
  · intro i jobId nowMs
    refine ⟨rfl, rfl, rfl, rfl⟩

set_option maxRecDepth 4000 in
/-- C4.  Evaluating the synthesizer loops at their overflow point.  In
`generateEINDocument`, a loop step at y=96 (below the 100-point margin)
merely clamps the draw to y=100 on the same page — no page is added and y
is not reset to the top margin — so a 38-row field list (capacity 37 rows
per page) still yields a single page where the claim requires
`ceil(38/37) = 2`.  In `generateArticlesDocument`, a 31-row section list
(capacity 30) does add a second page, but every row is still drawn on page
0, the first page: the second page stays blank and row order across the
page boundary is not preserved.  On the fixed row lists the sources
actually build (8 sections, 23 form fields), the overflow branch is
unreachable and every synthesized document has exactly one page. -/
theorem C4_pagination_eval :
    einStep { numPages := 1, y := 96, ops := [] } "row" =
      { numPages := 1, y := 84, ops := [(0, "row", 100)] } ∧
    (einRender (List.replicate 38 "row")).numPages = 1 ∧
    (articlesRender (List.replicate 31 "row")).numPages = 2 ∧
    ((articlesRender (List.replicate 31 "row")).ops.all (fun o => o.1 = 0)) = true ∧
    ((generateEINDocument { entity_type := some "C-Corp" } "1/1/2024").map
      (fun s => s.numPages)) = some 1 ∧
    (generateArticlesDocument { entity_type := some "LLC" } "1/1/2024").numPages = 1 := by
  refine ⟨rfl, by decide, by decide, by decide, rfl, rfl⟩

/-- C5, counterexample.  The claim says a PDF-library failure degrades the
affected form to a `text/plain` placeholder while the overall result stays
successful.  With a library whose font embedding rejects, the handler's
`catch` answers 500 with `ok:false` and an empty documents mapping: a hard
failure, and no placeholder of any MIME type is produced. -/
theorem C5_counterexample :
    handleAgentSubmit badFontLib (some acmeIntakeC) none 0 =
      { status := 500, ok := false, error := some "font embed failed", documents := [] } := by
  rfl

/-- C5, amended.  When either pdf-lib call (`embedFont` or `save`) rejects
for a form, the generator rethrows, the handler's `catch` fires, and the
whole request is answered 500 with `ok:false` and no documents at all —
there is no per-form degradation to a text placeholder and no partial
document set. -/
theorem C5_render_failure_hard (lib : PdfLib) (i : IntakeC) (jobId : Option String)
    (nowMs : Nat) (h : lib.embedFontFails = true ∨ lib.saveFails = true) :
    (handleAgentSubmit lib (some i) jobId nowMs).status = 500 ∧
    (handleAgentSubmit lib (some i) jobId nowMs).ok = false ∧
    (handleAgentSubmit lib (some i) jobId nowMs).documents = [] := by
  unfold handleAgentSubmit generateMockPDF
  rcases h with h | h
  · simp [h, bind, Except.bind]
  · rcases he : lib.embedFontFails with _ | _ <;> simp [h, he, bind, Except.bind]

/-- C5, witness for the amended claim at a concrete failing library. -/
theorem C5_witness :
    (badFontLib.embedFontFails = true ∨ badFontLib.saveFails = true) ∧
    ((handleAgentSubmit badFontLib (some acmeIntakeC) none 0).status = 500 ∧
      (handleAgentSubmit badFontLib (some acmeIntakeC) none 0).ok = false ∧
      (handleAgentSubmit badFontLib (some acmeIntakeC) none 0).documents = []) :=
  ⟨Or.inl rfl, C5_render_failure_hard badFontLib acmeIntakeC none 0 (Or.inl rfl)⟩

/-- C8.  For every intake with business name and entity type present, and
whatever the template fetches did: the server.js `/agent/submit` response
carries an `ss4` entry wrapping the complete saved SS-4 mock document as
an `application/pdf` data URL with non-empty drawn content, and the
variant A `POST /` response carries an `ss4` entry wrapping the complete
`createFilledPDF` artifact as an `application/pdf` data URL whose document
is non-empty (template pages on the overlay path, drawn operations headed
by the title on the synthesis path). -/
theorem C8_ss4_always_present (i : IntakeC) (jobId : Option String) (nowMs : Nat)
    (f1 f2 : FetchOutcome) (d : BusinessDataA) (today : String)
    (hbn : i.business_name ≠ none) (het : i.entity_type ≠ none) :
    ((handleAgentSubmit okLib (some i) jobId nowMs).documents.lookup "ss4" =
      some { filename := nameSlug i.business_name ++ "_EIN_Application.pdf"
           , url := { mime := "application/pdf"
                    , payload := { title := einTitleStr, content := einContentOf i } }
           , document_type := "EIN Application" } ∧
      einTitleStr ≠ "") ∧
    ((handleRoot f1 f2 d today).documents.lookup "ss4" =
      some { filename := "SS-4_EIN_Application.pdf"
           , mime := "application/pdf"
           , payload := createFilledPDF f1 d "SS-4" today } ∧
      (createFilledPDF f1 d "SS-4" today).nonEmptyDoc = true) := by
  refine ⟨⟨rfl, by decide⟩, ?_, ?_⟩
  · unfold handleRoot
    by_cases h : d.ENTITY_TYPE = some "LLC" ∧ d.STATE = some "CA" <;> simp [h, List.lookup]
  · cases f1 with
    | success tmpl =>
      unfold createFilledPDF
      by_cases hp : 0 < tmpl.pages
      · simp [hp, RenderedDoc.nonEmptyDoc]
      · have hops : overlayOps d "SS-4" ≠ [] := by
          unfold overlayOps
          simp
        simp [hp, hops, RenderedDoc.nonEmptyDoc, fallbackOps]
    | httpError s => simp [createFilledPDF, RenderedDoc.nonEmptyDoc, fallbackOps]
    | networkError m => simp [createFilledPDF, RenderedDoc.nonEmptyDoc, fallbackOps]

/-- C8, witness at a concrete valid intake and failing fetches. -/
theorem C8_witness :
    acmeIntakeC.business_name ≠ none ∧ acmeIntakeC.entity_type ≠ none ∧
    (((handleAgentSubmit okLib (some acmeIntakeC) none 0).documents.lookup "ss4" =
      some { filename := nameSlug acmeIntakeC.business_name ++ "_EIN_Application.pdf"
           , url := { mime := "application/pdf"
                    , payload := { title := einTitleStr
                                 , content := einContentOf acmeIntakeC } }
           , document_type := "EIN Application" } ∧
      einTitleStr ≠ "") ∧
    ((handleRoot (.httpError 404) (.httpError 404) corpExample "1/1/2024").documents.lookup
        "ss4" =
      some { filename := "SS-4_EIN_Application.pdf"
           , mime := "application/pdf"
           , payload := createFilledPDF (.httpError 404) corpExample "SS-4" "1/1/2024" } ∧
      (createFilledPDF (.httpError 404) corpExample "SS-4" "1/1/2024").nonEmptyDoc = true)) :=
  ⟨by decide, by decide,
    C8_ss4_always_present acmeIntakeC none 0 (.httpError 404) (.httpError 404) corpExample
      "1/1/2024" (by decide) (by decide)⟩

/-- Masking the value of the `Date:` row, the only slot of the synthesis
fallback through which the generation timestamp can flow. -/
def maskDate (rows : List (String × String)) : List (String × String) :=
  rows.map (fun p => if p.1 = "Date:" then (p.1, "<timestamp>") else p)

/-- The synthesis fallback document as a function of its drawn rows alone:
header, the rendered rows, footer. -/
def synthFromRows (formType : String) (rows : List (String × String)) : List PdfOp :=
  let rendered := rowsLoop 710 rows
  .drawText (fallbackTitle formType) 50 750 16 true ::
    rendered.1 ++ [.drawText footerNote 50 (rendered.2 - 40) 10 false]

theorem rowsLoop_filter (l : List (String × String)) (y : Int) :
    rowsLoop y (l.filter (fun p => p.2 ≠ "")) = rowsLoop y l := by
  induction l generalizing y with
  | nil => rfl
  | cons hd tl ih =>
    obtain ⟨a, b⟩ := hd
    simp only [ne_eq, decide_not] at ih
    by_cases h : b = ""
    · simp [List.filter_cons, h, rowsLoop, ih]
    · simp [List.filter_cons, h, rowsLoop, ih]

/-- C9.  Two synthesis-fallback runs on the same intake (template
unavailable both times) agree on every drawn row except the `Date:` row —
the only slot fed by `new Date().toLocaleDateString()` — and each produced
document is a pure function of its drawn rows.  So the two synthesized
documents are identical except for the embedded timestamp field (and
exactly identical whenever the intake pins `DATE` itself). -/
theorem C9_synthesis_deterministic (d : BusinessDataA) (formType : String)
    (t1 t2 : String) (h1 : t1 ≠ "") (h2 : t2 ≠ "") :
    maskDate (drawnRows d formType t1) = maskDate (drawnRows d formType t2) ∧
    (∀ today, fallbackOps d formType today = synthFromRows formType (drawnRows d formType today)) := by
  constructor
  · have hv1 : jsOrS (jsField d.DATE) t1 ≠ "" := jsOrS_ne_empty _ _ h1
    have hv2 : jsOrS (jsField d.DATE) t2 ≠ "" := jsOrS_ne_empty _ _ h2
    simp only [drawnRows, infoList, List.filter_append, maskDate, List.map_append]
    congr 1
    congr 1
    simp [List.filter_cons, hv1, hv2]
  · intro today
    unfold fallbackOps synthFromRows drawnRows
    rw [rowsLoop_filter]

/-- C9, witness at a concrete intake and two concrete run dates. -/
theorem C9_witness :
    ("1/1/2024" : String) ≠ "" ∧ ("2/2/2024" : String) ≠ "" ∧
    (maskDate (drawnRows corpExample "SS-4" "1/1/2024") =
        maskDate (drawnRows corpExample "SS-4" "2/2/2024") ∧
      (∀ today, fallbackOps corpExample "SS-4" today =
        synthFromRows "SS-4" (drawnRows corpExample "SS-4" today))) :=
  ⟨by decide, by decide,
    C9_synthesis_deterministic corpExample "SS-4" "1/1/2024" "2/2/2024" (by decide) (by decide)⟩

/-- C10, counterexample.  The claim says every request to a non-health
path without the exact `Bearer <admin key>` header is answered 401 (or 500
without a configured key).  An `OPTIONS` request to `/agent/submit` with
no Authorization header at all is answered 200 by the CORS middleware,
which runs before `authenticateRequest`. -/
theorem C10_counterexample :
    serverApp (some "secret")
        { method := "OPTIONS", path := "/agent/submit", authorization := none } =
      { status := 200, okFlag := none, handler := none } := by
  rfl

/-- C10, amended.  In the server.js pipeline: GET requests to `/health`
and `/agent/health` run their handlers and answer 200 `ok:true` regardless
of the Authorization header; `OPTIONS` requests to any path are answered
200 by the CORS preflight before authentication, with no route handler
run; every other request off the health paths whose Authorization header
is not exactly `Bearer <configured key>` runs no route handler and is
answered 401 (500 when no admin key is configured).  The variant A
middleware has no missing-key branch: an unauthorized non-health request
is answered 401 there even when no key is configured. -/
theorem C10_auth_pipeline (key : Option String) (req : HttpRequest) :
    (req.method = "GET" → isHealthPath req.path = true →
      (serverApp key req).status = 200 ∧ (serverApp key req).okFlag = some true ∧
      (variantAApp key req).status = 200 ∧ (variantAApp key req).okFlag = some true) ∧
    (req.method = "OPTIONS" →
      serverApp key req = { status := 200, okFlag := none, handler := none }) ∧
    (req.method ≠ "OPTIONS" → isHealthPath req.path = false →
      serverAuthOk key req.authorization = false →
      (serverApp key req).handler = none ∧
      (serverApp key req).status = (if isConfiguredKey key then 401 else 500)) ∧
    (isHealthPath req.path = false → variantAAuthRejects key req.authorization = true →
      variantAApp key req = { status := 401, okFlag := some false, handler := none }) := by
  refine ⟨?_, ?_, ?_, ?_⟩
  · intro hm hp
    have hp' : req.path = "/health" ∨ req.path = "/agent/health" := by
      simpa [isHealthPath] using hp
    have hmne : ¬req.method = "OPTIONS" := by
      rw [hm]
      decide
    rcases hp' with hp' | hp' <;>
      by_cases hr : variantAAuthRejects key req.authorization = true <;>
        simp [serverApp, variantAApp, routeServerJs, routeVariantA, isHealthPath, hm, hp',
          hmne, hr]
  · intro hm
    simp [serverApp, hm]
  · intro hm hp hok
    cases key with
    | none =>
      simp [serverApp, hm, hp, isConfiguredKey]
    | some k =>
      by_cases hk : k = ""
      · simp [serverApp, hm, hp, hk, isConfiguredKey]
      · have hrej : serverAuthRejects k req.authorization = true := by
          by_contra hno
          simp [serverAuthOk, hk, hno] at hok
        simp [serverApp, hm, hp, hk, isConfiguredKey, hrej]
  · intro hp hr
    simp [variantAApp, hp, hr]

/-- C10, witness: a POST to `/agent/submit` without any Authorization
header, against a configured admin key, runs no handler and is answered
401. -/
theorem C10_witness :
    (("POST" : String) ≠ "OPTIONS" ∧
      isHealthPath "/agent/submit" = false ∧
      serverAuthOk (some "secret") none = false) ∧
    ((serverApp (some "secret")
        { method := "POST", path := "/agent/submit", authorization := none }).handler = none ∧
      (serverApp (some "secret")
        { method := "POST", path := "/agent/submit", authorization := none }).status = 401) := by
  have h := (C10_auth_pipeline (some "secret")
    { method := "POST", path := "/agent/submit", authorization := none }).2.2.1
    (by decide) (by decide) (by decide)
  exact ⟨⟨by decide, by decide, by decide⟩, h.1, by rw [h.2]; decide⟩

end NovaVM
